import Mathlib

/-!
Verification of the Legal Guardian core against its specification.

The TypeScript source is shallowly embedded: JavaScript strings become
`List Char`, the trigger rule table and the speech trigger matcher
(`LegalSpeechAnalyzer.analyzeSpeech`), the advisory presentation controller
(`RealTimeLegalAI`), the session lifecycle manager (`SessionManager`) and the
mock scenario selector (`generateMockAnalysis`) become pure Lean functions and
explicit state-passing functions.  JavaScript numbers that hold epoch
milliseconds or second counts become `Nat`; analysis confidence (a value in
[0,1]) becomes `Rat`.  Locale-formatted date/time strings and random choices
are supplied by the environment, so they appear as explicit parameters.
-/

namespace LegalGuardian

/-- JavaScript strings are embedded as lists of characters. -/
abbrev Str := List Char

/-- Shorthand turning a Lean string literal into the embedded representation. -/
def str (s : String) : Str := s.data

/-- `strStarts s pat`: JavaScript `s.startsWith(pat)` — `pat` is a prefix of `s`. -/
def strStarts : Str → Str → Bool
  | _, [] => true
  | [], _ :: _ => false
  | c :: cs, d :: ds => c == d && strStarts cs ds

/-- `strIncludes s pat`: JavaScript `s.includes(pat)` — `pat` occurs as a
contiguous substring of `s`. -/
def strIncludes : Str → Str → Bool
  | [], pat => pat.isEmpty
  | s@(_ :: rest), pat => strStarts s pat || strIncludes rest pat

/-- JavaScript `s.toLowerCase()` on the ASCII strings this program uses. -/
def lowerStr (s : Str) : Str := s.map Char.toLower

/-- JavaScript `s.trim()`: strip leading and trailing whitespace. -/
def trimL (s : Str) : Str :=
  ((s.dropWhile Char.isWhitespace).reverse.dropWhile Char.isWhitespace).reverse

/-- JavaScript `s.split('|')` (no empty separator corner cases arise: the
separator is the single character `|`). -/
def splitPipe : Str → List Str
  | [] => [[]]
  | c :: rest =>
    let r := splitPipe rest
    if c = '|' then [] :: r
    else
      match r with
      | [] => [[c]]
      | piece :: pieces => (c :: piece) :: pieces

/-- Urgency of an advisory tip (`'low' | 'medium' | 'high'`). -/
inductive Urgency
  | low
  | medium
  | high
deriving DecidableEq, Repr

/-- Category of an advisory tip. -/
inductive TipCategory
  | rights
  | search
  | detention
  | documentation
  | general
  | immigration
deriving DecidableEq, Repr

/-- `LegalTip` from `LegalSpeechAnalyzer`: `trigger` is a `|`-separated list of
lowercase phrases. -/
structure LegalTip where
  id : Str
  trigger : Str
  tip : Str
  urgency : Urgency
  category : TipCategory
deriving DecidableEq, Repr

/-- The static trigger rule table `LEGAL_TIPS` of `LegalSpeechAnalyzer`, in
declaration order. -/
def LEGAL_TIPS : List LegalTip := [
  { id := str "id_request",
    trigger := str "license|identification|id|show me your|can i see your",
    tip := str "📋 You must provide ID if driving or lawfully detained. Ask: \"Am I legally required to show ID?\" You can remain silent about other questions.",
    urgency := .medium, category := .documentation },
  { id := str "search_request",
    trigger := str "search|look through|check your|mind if i search|can i search",
    tip := str "🔍 Clearly state: \"I do not consent to searches.\" Police need a warrant, probable cause, or your consent to search.",
    urgency := .high, category := .search },
  { id := str "step_out",
    trigger := str "step out|exit the vehicle|get out of the car|out of the vehicle",
    tip := str "🚗 Ask \"Why am I being ordered to exit?\" You must comply if ordered, but you can ask for clarification about detention.",
    urgency := .medium, category := .detention },
  { id := str "arrest",
    trigger := str "under arrest|placing you under arrest|arresting you|you are under arrest",
    tip := str "🚨 Say clearly: \"I am invoking my right to remain silent and I want an attorney.\" Do not resist physically.",
    urgency := .high, category := .rights },
  { id := str "why_stopped",
    trigger := str "know why|pulled you over|stopped you|reason i stopped|why i pulled",
    tip := str "❓ You can say: \"No officer, I don't know why.\" Admitting knowledge can be self-incriminating.",
    urgency := .low, category := .general },
  { id := str "drinking_drugs",
    trigger := str "drinking|drugs|alcohol|substances|been using|have you been",
    tip := str "🍺 You have the right to remain silent. You can say: \"I choose to remain silent.\"",
    urgency := .medium, category := .rights },
  { id := str "where_going",
    trigger := str "where are you going|where you coming from|what are you doing|destination",
    tip := str "🗺️ You generally don't have to answer. Ask: \"Am I free to go?\" If detained, ask for the specific reason.",
    urgency := .low, category := .general },
  { id := str "hands_behind",
    trigger := str "hands behind|put your hands|stop resisting|calm down",
    tip := str "✋ Stay calm. Keep hands visible. State: \"I am not resisting.\" Comply with physical commands while maintaining your rights.",
    urgency := .high, category := .detention },
  { id := str "immigration_status",
    trigger := str "citizen|citizenship|immigration status|green card|papers|are you legal",
    tip := str "🛡️ You have the right to remain silent about immigration status. Say: \"I choose to remain silent and want to speak to a lawyer.\"",
    urgency := .high, category := .immigration },
  { id := str "ice_agents",
    trigger := str "ice|immigration enforcement|homeland security|deportation|removal|open the door",
    tip := str "🚨 CRITICAL: Do NOT open doors without a judicial warrant. Say: \"I do not consent to entry. Show me a judicial warrant signed by a judge.\"",
    urgency := .high, category := .immigration },
  { id := str "consent",
    trigger := str "consent|permission|okay if|mind if|can we|may we",
    tip := str "⚖️ You have the right to refuse consent. Say: \"I do not consent\" clearly and calmly.",
    urgency := .medium, category := .rights },
  { id := str "detained",
    trigger := str "detained|detaining|hold you|stay here|don't leave",
    tip := str "🔒 Ask clearly: \"Am I being detained or am I free to go?\" This clarifies your legal status.",
    urgency := .medium, category := .detention },
  { id := str "miranda_rights",
    trigger := str "right to remain silent|miranda|anything you say|used against you",
    tip := str "📖 Listen carefully to your rights. Say: \"I understand my rights and I want to speak to an attorney.\"",
    urgency := .high, category := .rights },
  { id := str "recording",
    trigger := str "recording|camera|phone|filming|video",
    tip := str "📱 You generally have the right to record police in public. State: \"I am recording for both of our protection.\"",
    urgency := .low, category := .rights },
  { id := str "warrant",
    trigger := str "warrant|court order|judge signed|search warrant",
    tip := str "📜 Ask to see the warrant. You can say: \"I want to see the warrant and speak to my attorney.\"",
    urgency := .medium, category := .documentation },
  { id := str "user_silence",
    trigger := str "i remain silent|right to remain silent|fifth amendment|staying silent",
    tip := str "✅ Good! You're invoking your 5th Amendment right. State this clearly and then stop talking except to repeat your request for an attorney.",
    urgency := .low, category := .rights },
  { id := str "user_lawyer",
    trigger := str "i want a lawyer|i want an attorney|lawyer|attorney|immigration lawyer",
    tip := str "✅ Excellent! You're invoking your right to legal counsel. Once requested, questioning should stop until your attorney is present.",
    urgency := .low, category := .rights },
  { id := str "user_free_to_go",
    trigger := str "am i free to go|am i being detained|am i under arrest",
    tip := str "✅ Excellent question! This clarifies your legal status. If not detained, you can leave. If detained, remain calm and ask why.",
    urgency := .low, category := .detention },
  { id := str "user_no_consent",
    trigger := str "i do not consent|i don't consent|no consent to search",
    tip := str "✅ Perfect! You're asserting your 4th Amendment rights against unreasonable searches. Stay calm and repeat if necessary.",
    urgency := .low, category := .search },
  { id := str "user_recording",
    trigger := str "recording this|i am recording|this is being recorded",
    tip := str "✅ Great practice! Recording interactions is legal in most jurisdictions and provides important documentation for your protection.",
    urgency := .low, category := .general }
]

/-- The inner loop of `analyzeSpeech`: does any phrase of the tip's trigger
list, lowercased, occur in the (already lowercased) transcript? -/
def tipMatches (lower : Str) (tip : LegalTip) : Bool :=
  (splitPipe tip.trigger).any fun tr => strIncludes lower (lowerStr tr)

/-- `LegalSpeechAnalyzer.analyzeSpeech`: return `null` for an empty or
whitespace-only transcript (`!transcript || transcript.trim().length === 0`);
otherwise lowercase the transcript and return the first tip, in table order,
one of whose trigger phrases occurs as a substring. -/
def analyzeSpeech (transcript : Str) : Option LegalTip :=
  if (trimL transcript).length = 0 then none
  else LEGAL_TIPS.find? (tipMatches (lowerStr transcript))

/-! ### Session lifecycle manager (`SessionManager`) -/

/-- Session status (`'Complete' | 'Processing' | 'Failed'`). -/
inductive Status
  | Complete
  | Processing
  | Failed
deriving DecidableEq, Repr

/-- Session quality tier (`'Excellent' | 'Good' | 'Fair' | 'Poor'`). -/
inductive Quality
  | Excellent
  | Good
  | Fair
  | Poor
deriving DecidableEq, Repr

/-- Risk level of an analysis (`'low' | 'medium' | 'high'`). -/
inductive RiskLevel
  | low
  | medium
  | high
deriving DecidableEq, Repr

/-- Analysis urgency (`'normal' | 'urgent' | 'critical'`). -/
inductive UrgencyLevel
  | normal
  | urgent
  | critical
deriving DecidableEq, Repr

/-- A canned scenario template of `generateMockAnalysis` (the fields each
scenario object carries before `confidence` and `analysisTimestamp` are added
on return). -/
structure ScenarioTemplate where
  summary : Str
  situationType : Str
  riskLevel : RiskLevel
  whatWentWell : List Str
  areasForImprovement : List Str
  legalTips : List Str
  legalRedFlags : List Str
  recommendedActions : List Str
  requiresLegalAttention : Bool
  lawyerRecommendation : Option Str := none
  urgencyLevel : Option UrgencyLevel := none
deriving DecidableEq, Repr

/-- `SessionData['aiAnalysis']`: a scenario template plus the `confidence`
added at return.  The `analysisTimestamp: Date` field is wall-clock metadata
and is not part of the embedding. -/
structure AIAnalysis extends ScenarioTemplate where
  confidence : ℚ
deriving DecidableEq, Repr

/-- The three booleans of `SessionData.processingSteps`. -/
structure ProcessingSteps where
  recording : Bool
  transcription : Bool
  analysis : Bool
deriving DecidableEq, Repr

/-- `SessionData` from `SessionManager`.  `audioBlob` (an opaque platform
handle) is not part of the embedding. -/
structure SessionData where
  id : Str
  date : Str
  time : Str
  duration : Str
  snippet : Str
  status : Status
  quality : Quality
  audioUrl : Option Str := none
  transcript : Option Str := none
  aiAnalysis : Option AIAnalysis := none
  processingSteps : Option ProcessingSteps := none
  createdAt : Option ℕ := none
  isRealSession : Option Bool := none
deriving DecidableEq, Repr

/-- A JavaScript `Partial<SessionData>` as passed to
`updateSessionProgress`: only the fields some call site actually updates. -/
structure SessionUpdate where
  duration : Option Str := none
  snippet : Option Str := none
  status : Option Status := none
  quality : Option Quality := none
  transcript : Option Str := none
  aiAnalysis : Option AIAnalysis := none
  processingSteps : Option ProcessingSteps := none
deriving DecidableEq, Repr

/-- The JavaScript spread merge `{ ...session, ...updates }`. -/
def applyUpdate (s : SessionData) (u : SessionUpdate) : SessionData :=
  { s with
    duration := u.duration.getD s.duration
    snippet := u.snippet.getD s.snippet
    status := u.status.getD s.status
    quality := u.quality.getD s.quality
    transcript := (u.transcript.map some).getD s.transcript
    aiAnalysis := (u.aiAnalysis.map some).getD s.aiAnalysis
    processingSteps := (u.processingSteps.map some).getD s.processingSteps }

/-- A reading of the environment clock: `Date.now()` epoch milliseconds plus
the locale-formatted date and time strings the manager stores (formatting is
done by the platform, so the strings are inputs to the model). -/
structure Clock where
  ms : ℕ
  dateStr : Str
  timeStr : Str

/-- `location`/`customTitle` metadata accepted (and ignored) by
`startSession`. -/
structure SessionMetadata where
  latitude : Option ℚ := none
  longitude : Option ℚ := none
  address : Option Str := none
  customTitle : Option Str := none

/-- The mutable fields of the `SessionManager` singleton.  `notified` logs, most
recent first, the session collection passed to listeners at each
`notifyListeners()` call.  The external persistent stores (`SessionStorage`,
`storageUtils`) live behind awaited collaborator calls and are not part of the
manager's own state. -/
structure ManagerState where
  sessions : List SessionData
  currentSession : Option SessionData := none
  recordingStartTime : ℕ := 0
  notified : List (List SessionData) := []
deriving Repr

/-- JavaScript `` `${n}` `` for a natural number. -/
def natToStr (n : ℕ) : Str := Nat.toDigits 10 n

/-- JavaScript `s.padStart(2, '0')`. -/
def padZero2 (s : Str) : Str :=
  if 2 ≤ s.length then s else List.replicate (2 - s.length) '0' ++ s

/-- `SessionManager.formatDuration`: `` `${mins}:${secs.padStart(2,'0')}` ``. -/
def formatDuration (seconds : ℕ) : Str :=
  natToStr (seconds / 60) ++ ':' :: padZero2 (natToStr (seconds % 60))

/-- `SessionManager.startSession`: unconditionally builds a fresh session with
a time-derived id and stores it in the active-session slot — the source has no
check for an already-active session, so any live session is overwritten and
lost.  `metadata` is accepted but never stored. -/
def startSession (st : ManagerState) (_metadata : SessionMetadata) (now : Clock) :
    SessionData × ManagerState :=
  let s : SessionData :=
    { id := str "session_" ++ natToStr now.ms
      date := now.dateStr
      time := now.timeStr
      duration := str "00:00"
      snippet := str "Recording in progress..."
      status := .Processing
      quality := .Good
      createdAt := some now.ms
      isRealSession := some true }
  (s, { st with currentSession := some s, recordingStartTime := now.ms })

/-- `SessionManager.endSession`: `null` (and no state change) when no session
is active; otherwise stamp duration/snippet/status on the active session,
prepend it to the collection (`unshift`), notify listeners, clear the
active-session slot and return the ended session. -/
def endSession (st : ManagerState) (now : Clock) :
    Option SessionData × ManagerState :=
  match st.currentSession with
  | none => (none, st)
  | some cs =>
    let durationSec := (now.ms - st.recordingStartTime) / 1000
    let ended := { cs with
      duration := formatDuration durationSec
      snippet := str "Processing session analysis..."
      status := Status.Processing }
    let sessions2 := ended :: st.sessions
    (some ended,
      { st with
        sessions := sessions2
        currentSession := none
        recordingStartTime := 0
        notified := sessions2 :: st.notified })

/-- `SessionManager.saveSession` (synchronous part): build a fresh Processing
session with a time-derived id, prepend it, notify, and return it.  The
asynchronous `setTimeout` analysis pipeline is modelled separately by
`analysisPipeline`. -/
def saveSession (st : ManagerState) (duration : ℕ) (audioUri : Option Str)
    (now : Clock) : SessionData × ManagerState :=
  let sessionId := str "session_" ++ natToStr now.ms
  let newSession : SessionData :=
    { id := sessionId
      date := now.dateStr
      time := now.timeStr
      duration := formatDuration duration
      snippet := str "Processing session analysis..."
      status := .Processing
      quality := .Good
      audioUrl := some (audioUri.getD (str "recording_" ++ sessionId))
      createdAt := some now.ms
      isRealSession := some true
      processingSteps := some ⟨true, false, false⟩ }
  let sessions2 := newSession :: st.sessions
  (newSession,
    { st with sessions := sessions2, notified := sessions2 :: st.notified })

/-- `findIndex` + in-place assignment: replace the first element satisfying
`p` by its image under `f`; `none` when no element matches. -/
def updateFirst (p : SessionData → Bool) (f : SessionData → SessionData) :
    List SessionData → Option (List SessionData)
  | [] => none
  | s :: rest =>
    if p s then some (f s :: rest)
    else (updateFirst p f rest).map (s :: ·)

/-- `SessionManager.updateSessionProgress`: merge `updates` into the first
session whose id matches, then notify; a miss (`findIndex === -1`) changes
nothing. -/
def updateSessionProgress (st : ManagerState) (sessionId : Str)
    (u : SessionUpdate) : ManagerState :=
  match updateFirst (fun s => s.id == sessionId) (fun s => applyUpdate s u)
      st.sessions with
  | none => st
  | some sessions2 =>
    { st with sessions := sessions2, notified := sessions2 :: st.notified }

/-- Remove the first element satisfying `p` (`findIndex` + `splice`);
`none` when no element matches. -/
def removeFirst (p : SessionData → Bool) :
    List SessionData → Option (List SessionData)
  | [] => none
  | s :: rest =>
    if p s then some rest
    else (removeFirst p rest).map (s :: ·)

/-- `SessionManager.deleteSession`: remove the session with the given id from
the collection and notify, returning `true`; return `false` (no state change)
when the id is unknown. -/
def deleteSession (st : ManagerState) (sessionId : Str) :
    Bool × ManagerState :=
  match removeFirst (fun s => s.id == sessionId) st.sessions with
  | none => (false, st)
  | some sessions2 =>
    (true, { st with sessions := sessions2, notified := sessions2 :: st.notified })

/-- `SessionManager.getSessions` (the in-memory collection handed to callers). -/
def getSessions (st : ManagerState) : List SessionData := st.sessions

/-- `SessionManager.determineQuality`: the quality tier derived from analysis
confidence. -/
def determineQuality (confidence : ℚ) : Quality :=
  if confidence ≥ 9/10 then .Excellent
  else if confidence ≥ 8/10 then .Good
  else if confidence ≥ 6/10 then .Fair
  else .Poor

/-! ### Scenario selector (`generateMockAnalysis`) -/

/-- `scenarios[0]` of `generateMockAnalysis`: the police-stop template (also
the default scenario). -/
def scenarioPolice : ScenarioTemplate :=
  { summary := str "Police interaction regarding routine questioning. You demonstrated good knowledge of your rights and maintained professional communication throughout the encounter."
    situationType := str "Police Stop"
    riskLevel := .medium
    whatWentWell := [
      str "Clearly asked about detention status before complying",
      str "Maintained respectful tone while asserting rights",
      str "Informed officer about recording for transparency",
      str "Stayed calm and composed throughout interaction",
      str "Provided required identification when legally obligated"]
    areasForImprovement := [
      str "Could have asked for officer badge number earlier",
      str "Consider stating your name more clearly at the beginning",
      str "Ask about the specific reason for the stop",
      str "Request written documentation if citations are issued"]
    legalTips := [
      str "Always ask \"Am I being detained?\" to clarify your legal status",
      str "You have the right to remain silent beyond providing basic identification",
      str "Recording police interactions is legal in most jurisdictions",
      str "Stay calm and avoid sudden movements during encounters",
      str "You can ask for the officer's name and badge number",
      str "If not detained, you have the right to leave"]
    legalRedFlags := [
      str "Officer initially avoided answering detention question directly",
      str "No clear reason provided for the initial stop"]
    recommendedActions := [
      str "Document the interaction details while fresh in memory",
      str "Note the officer's badge number and patrol car number",
      str "Save this recording in a secure location",
      str "Consider filing a complaint if rights were violated"]
    requiresLegalAttention := false }

/-- `scenarios[1]`: the workplace-dispute template. -/
def scenarioWorkplace : ScenarioTemplate :=
  { summary := str "Workplace incident involving policy discussion with supervisor. You maintained professionalism and properly documented the conversation."
    situationType := str "Workplace Dispute"
    riskLevel := .medium
    whatWentWell := [
      str "Requested to record the conversation for accuracy",
      str "Asked for clarification on policy changes",
      str "Maintained professional demeanor throughout",
      str "Requested written confirmation of new policies",
      str "Stayed focused on facts rather than emotions"]
    areasForImprovement := [
      str "Could have requested HR presence for policy discussions",
      str "Ask for specific policy document references",
      str "Request meeting summary in writing",
      str "Consider involving union representative if applicable"]
    legalTips := [
      str "Document all workplace policy discussions",
      str "Request written confirmation of policy changes",
      str "Know your rights regarding overtime compensation",
      str "HR should be involved in significant policy disputes",
      str "Keep records of all work-related communications",
      str "Understand your state's labor laws"]
    legalRedFlags := [
      str "Policy change mentioned without proper written notice",
      str "Supervisor seemed reluctant to provide documentation"]
    recommendedActions := [
      str "Follow up with HR about the policy discussion",
      str "Request written copy of the new overtime policy",
      str "Document any changes to your work schedule",
      str "Consult with employment attorney if needed"]
    requiresLegalAttention := true
    lawyerRecommendation := some (str "Consider consulting with an employment lawyer to review workplace policy changes and ensure your rights are protected.")
    urgencyLevel := some .normal }

/-- `scenarios[2]`: the consumer-rights template. -/
def scenarioConsumer : ScenarioTemplate :=
  { summary := str "Consumer rights issue with store management. You effectively challenged the policy and sought reasonable resolution."
    situationType := str "Consumer Rights"
    riskLevel := .low
    whatWentWell := [
      str "Clearly explained your position with evidence",
      str "Remained calm despite initial refusal",
      str "Offered alternative proof of purchase",
      str "Documented the interaction by recording",
      str "Sought manager involvement for resolution"]
    areasForImprovement := [
      str "Reference specific consumer protection laws",
      str "Ask for store policy documentation",
      str "Request escalation to corporate level",
      str "Consider filing complaints with regulatory agencies"]
    legalTips := [
      str "Keep all receipts and documentation",
      str "Know your consumer protection rights",
      str "Document all communications with businesses",
      str "Understand return and refund policies before purchasing",
      str "File complaints with Better Business Bureau if needed",
      str "Consider small claims court for unresolved disputes"]
    legalRedFlags := [
      str "Store policy may violate consumer protection laws",
      str "Manager initially refused to check alternative proof"]
    recommendedActions := [
      str "Follow up with store corporate customer service",
      str "File complaint with state consumer protection agency",
      str "Keep detailed records of all communications",
      str "Consider disputing charge with credit card company"]
    requiresLegalAttention := false }

/-- `scenarios[3]`: the high-risk ICE-encounter template (requires urgent
legal attention, `urgencyLevel: 'critical'`). -/
def scenarioICE : ScenarioTemplate :=
  { summary := str "ICE encounter involving immigration status questions and potential detention threats. Critical situation requiring immediate legal intervention."
    situationType := str "ICE Encounter"
    riskLevel := .high
    whatWentWell := [
      str "Attempted to remain silent about immigration status",
      str "Tried to record the interaction",
      str "Asked about warrant requirements"]
    areasForImprovement := [
      str "Should have been more assertive about warrant requirements",
      str "Could have requested to speak through the door",
      str "Should have immediately requested immigration lawyer"]
    legalTips := [
      str "Never open door without judicial warrant signed by judge",
      str "Administrative warrants do not authorize home entry",
      str "You have right to remain silent about immigration status",
      str "Request immigration lawyer immediately",
      str "Do not sign any documents without legal representation"]
    legalRedFlags := [
      str "ICE agents threatened entry without proper warrant",
      str "Questions about immigration status and citizenship",
      str "Pressure to sign voluntary departure documents"]
    recommendedActions := [
      str "Contact immigration lawyer immediately",
      str "Document all details of the encounter",
      str "Notify family members and community organizations",
      str "Prepare emergency plan for family members"]
    requiresLegalAttention := true
    lawyerRecommendation := some (str "URGENT: This ICE encounter requires immediate immigration legal assistance. Contact an immigration attorney right away. Do not sign any documents without legal representation.")
    urgencyLevel := some .critical }

/-- `SessionManager.generateMockAnalysis`: pick a canned scenario by checking
the lowercased transcript against keyword sets in fixed priority order, then
return it with `confidence: 0.9` stamped on.  The `duration` argument is
accepted but unused, as in the source; the artificial 2500 ms delay is timing
only. -/
def generateMockAnalysis (transcript : Str) (_duration : ℕ) : AIAnalysis :=
  let lower := lowerStr transcript
  let selected :=
    if strIncludes lower (str "arrest") || strIncludes lower (str "search")
        || strIncludes lower (str "probable cause") then
      scenarioPolice
    else if strIncludes lower (str "ice") || strIncludes lower (str "immigration")
        || strIncludes lower (str "citizen") then
      scenarioICE
    else if strIncludes lower (str "workplace") || strIncludes lower (str "supervisor")
        || strIncludes lower (str "overtime") then
      scenarioWorkplace
    else if strIncludes lower (str "store") || strIncludes lower (str "return")
        || strIncludes lower (str "receipt") then
      scenarioConsumer
    else
      scenarioPolice
  { toScenarioTemplate := selected, confidence := 9/10 }

/-! ### The asynchronous analysis pipeline scheduled by `saveSession` -/

/-- The catch-branch update of the pipeline:
`{snippet: 'Analysis failed. Please try again.', status: 'Failed', quality: 'Poor'}`. -/
def failUpdate : SessionUpdate :=
  { snippet := some (str "Analysis failed. Please try again.")
    status := some .Failed
    quality := some .Poor }

/-- The step-1 update: store the transcript and mark transcription done. -/
def transcriptUpdate (transcript : Str) : SessionUpdate :=
  { transcript := some transcript
    processingSteps := some ⟨true, true, false⟩ }

/-- The step-3 update: summary, Complete status, derived quality tier and the
analysis itself. -/
def completeUpdate (analysis : AIAnalysis) : SessionUpdate :=
  { snippet := some analysis.summary
    status := some .Complete
    quality := some (determineQuality analysis.confidence)
    aiAnalysis := some analysis
    processingSteps := some ⟨true, true, true⟩ }

/-- The body of the `setTimeout` scheduled by `saveSession`, with its
`try`/`catch`.  The mock transcription step (a random pick that could throw)
and the mock analysis step are effectful awaits, so their outcomes are inputs:
`transcriptStep` is the result of `generateMockTranscript()` and
`analysisStep t` the result of `generateMockAnalysis(t, duration)` (whose
pure value is `Except.ok (generateMockAnalysis t duration)` when it does not
throw).  Any failure takes the catch branch, which records a Failed/Poor
session; nothing propagates to the caller of `saveSession`, and the function
is total by construction. -/
def analysisPipeline (st : ManagerState) (sessionId : Str) (_duration : ℕ)
    (transcriptStep : Except Str Str)
    (analysisStep : Str → Except Str AIAnalysis) : ManagerState :=
  match transcriptStep with
  | .error _ => updateSessionProgress st sessionId failUpdate
  | .ok transcript =>
    let st1 := updateSessionProgress st sessionId (transcriptUpdate transcript)
    match analysisStep transcript with
    | .error _ => updateSessionProgress st1 sessionId failUpdate
    | .ok analysis => updateSessionProgress st1 sessionId (completeUpdate analysis)

/-! ### Advisory presentation controller (`RealTimeLegalAI`) -/

/-- The pending auto-dismissal timeout (`tipTimeoutRef`): which tip scheduled
it and with what delay.  `clearTimeout` is modelled by replacing or dropping
this value; at most one timeout is ever pending because every scheduling site
first clears the previous one. -/
structure TimerInfo where
  tipId : Str
  delayMs : ℕ
deriving DecidableEq, Repr

/-- The state owned by the `RealTimeLegalAI` component: the visible tip
(`currentTip`), the last detected raw phrases (`detectedPhrases`), the
detection history (`tipHistory`) and the pending dismissal timer. -/
structure PresentationState where
  currentTip : Option LegalTip := none
  detectedPhrases : List Str := []
  tipHistory : List LegalTip := []
  pendingTimer : Option TimerInfo := none
deriving DecidableEq, Repr

/-- JavaScript `l.slice(-n)`: the last `n` elements (all of them when the list
is shorter). -/
def lastN {α : Type} (n : ℕ) (l : List α) : List α := l.drop (l.length - n)

/-- The auto-hide delay: `urgency === 'high' ? 12000 : urgency === 'medium' ?
10000 : 8000` milliseconds. -/
def hideDelay (u : Urgency) : ℕ :=
  match u with
  | .high => 12000
  | .medium => 10000
  | .low => 8000

/-- `detectPhrase` (and the identical detection body of
`processDetectedSpeech`): record the phrase (keeping the last 5), append the
tip to the history, make the tip visible, clear any pending dismissal timeout
and schedule a fresh one keyed by the tip's urgency.  Narration playback and
the `onTipDetected` callback are outward effects with no bearing on this
state. -/
def detectPhrase (ps : PresentationState) (phrase : Str) (tip : LegalTip) :
    PresentationState :=
  { ps with
    detectedPhrases := lastN 4 ps.detectedPhrases ++ [phrase]
    tipHistory := ps.tipHistory ++ [tip]
    currentTip := some tip
    pendingTimer := some ⟨tip.id, hideDelay tip.urgency⟩ }

/-- `processDetectedSpeech`: run the matcher over the recognized text and, on
a hit, perform the detection body (which is `detectPhrase` with the raw text
as the recorded phrase). -/
def processDetectedSpeech (ps : PresentationState) (text : Str) :
    PresentationState :=
  match analyzeSpeech text with
  | none => ps
  | some tip => detectPhrase ps text tip

/-- The pending timeout firing: `if (currentTip?.id === detectedTip.id)
setCurrentTip(null)` — the tip is cleared only when the tip that scheduled
the timeout is still the visible one. -/
def fireTimer (ps : PresentationState) : PresentationState :=
  match ps.pendingTimer with
  | none => ps
  | some ti =>
    match ps.currentTip with
    | some ct =>
      if ct.id == ti.tipId then
        { ps with pendingTimer := none, currentTip := none }
      else
        { ps with pendingTimer := none }
    | none => { ps with pendingTimer := none }

/-- `dismissTip`: manual dismissal clears the timeout and the visible tip. -/
def dismissTip (ps : PresentationState) : PresentationState :=
  { ps with pendingTimer := none, currentTip := none }

/-! ### Concrete example data used by the witnesses -/

/-- An example clock reading. -/
def exClock : Clock := ⟨1000, str "January 1, 2025", str "1:00 PM"⟩

/-- A later example clock reading. -/
def exClock2 : Clock := ⟨65000, str "January 1, 2025", str "1:01 PM"⟩

/-- A minimal completed session. -/
def exSession1 : SessionData :=
  { id := str "session_1", date := str "January 1, 2025", time := str "1:00 PM"
    duration := str "0:05", snippet := str "done", status := .Complete
    quality := .Good }

/-- A second minimal session. -/
def exSession2 : SessionData :=
  { id := str "session_2", date := str "January 2, 2025", time := str "2:00 PM"
    duration := str "1:05", snippet := str "processing", status := .Processing
    quality := .Fair }

/-- A manager state holding the two example sessions, no session active. -/
def exState : ManagerState := { sessions := [exSession1, exSession2] }

/-- A manager state in which `exSession1` is the active session. -/
def exStateActive : ManagerState :=
  { sessions := [exSession2], currentSession := some exSession1
    recordingStartTime := 500 }

/-- A minimal high-urgency tip for exercising the presentation controller. -/
def exTipA : LegalTip :=
  { id := str "a", trigger := str "a", tip := str "tip a"
    urgency := .high, category := .rights }

/-- A second minimal tip with a different id. -/
def exTipB : LegalTip :=
  { id := str "b", trigger := str "b", tip := str "tip b"
    urgency := .medium, category := .search }

/-- A presentation state in which tip `a` is visible and its own timeout is
pending. -/
def exPresA : PresentationState :=
  { currentTip := some exTipA, pendingTimer := some ⟨str "a", 12000⟩ }

/-- A presentation state in which tip `b` is visible while the stale timeout
scheduled by tip `a` is still pending. -/
def exPresB : PresentationState :=
  { currentTip := some exTipB, pendingTimer := some ⟨str "a", 12000⟩ }

/-! ### Generic lemmas about the embedded string primitives -/

theorem strStarts_exists {s pat : Str} (h : strStarts s pat = true) :
    ∃ suf, s = pat ++ suf := by
  induction pat generalizing s with
  | nil => exact ⟨s, rfl⟩
  | cons d ds ih =>
    cases s with
    | nil => simp [strStarts] at h
    | cons c cs =>
      simp only [strStarts, Bool.and_eq_true, beq_iff_eq] at h
      obtain ⟨suf, hsuf⟩ := ih h.2
      exact ⟨suf, by simp [h.1, hsuf]⟩

theorem strIncludes_exists {s pat : Str} (h : strIncludes s pat = true) :
    ∃ pre suf, s = pre ++ pat ++ suf := by
  induction s with
  | nil =>
    simp only [strIncludes, List.isEmpty_iff] at h
    exact ⟨[], [], by simp [h]⟩
  | cons c cs ih =>
    simp only [strIncludes, Bool.or_eq_true] at h
    rcases h with h | h
    · obtain ⟨suf, hsuf⟩ := strStarts_exists h
      exact ⟨[], suf, by simp [hsuf]⟩
    · obtain ⟨pre, suf, hps⟩ := ih h
      exact ⟨c :: pre, suf, by simp [hps]⟩

theorem mem_of_strIncludes {s pat : Str} (h : strIncludes s pat = true) :
    ∀ c ∈ pat, c ∈ s := by
  obtain ⟨pre, suf, hps⟩ := strIncludes_exists h
  intro c hc
  subst hps
  simp [hc]

/-- If `trim` removes everything, the string was all whitespace. -/
theorem trimL_eq_nil_all_ws {s : Str} (h : (trimL s).length = 0) :
    ∀ c ∈ s, c.isWhitespace = true := by
  intro c hc
  unfold trimL at h
  rw [List.length_eq_zero, List.reverse_eq_nil_iff, List.dropWhile_eq_nil_iff] at h
  have hdrop : ∀ c ∈ s.dropWhile Char.isWhitespace, c.isWhitespace = true := by
    intro d hd
    exact h d (by simpa using hd)
  have hsplit := List.takeWhile_append_dropWhile (p := Char.isWhitespace) (l := s)
  rw [← hsplit] at hc
  rcases List.mem_append.mp hc with htake | hdropm
  · exact List.mem_takeWhile_imp htake
  · exact hdrop c hdropm

/-- Lowercasing preserves whitespace. -/
theorem toLower_isWhitespace {c : Char} (h : c.isWhitespace = true) :
    (Char.toLower c).isWhitespace = true := by
  simp only [Char.isWhitespace, Bool.or_eq_true, decide_eq_true_eq] at h
  have h4 : c = ' ' ∨ c = '\t' ∨ c = '\r' ∨ c = '\n' := by tauto
  rcases h4 with h4 | h4 | h4 | h4 <;> subst h4 <;> decide

/-- First-match characterization of `List.find?` on lists containing a hit. -/
theorem find?_first_hit {α : Type} (p : α → Bool) :
    ∀ l : List α, l.any p = true →
      ∃ pre x post, l = pre ++ x :: post ∧ (∀ y ∈ pre, p y = false) ∧
        p x = true ∧ l.find? p = some x := by
  intro l
  induction l with
  | nil => intro h; simp at h
  | cons a t ih =>
    intro h
    cases hpa : p a with
    | true =>
      exact ⟨[], a, t, rfl, by simp, hpa, by simp [List.find?, hpa]⟩
    | false =>
      simp only [List.any_cons, hpa, Bool.false_or] at h
      obtain ⟨pre, x, post, hl, hpre, hx, hfind⟩ := ih h
      refine ⟨a :: pre, x, post, by simp [hl], ?_, hx, ?_⟩
      · intro y hy
        rcases List.mem_cons.mp hy with rfl | hy
        · exact hpa
        · exact hpre y hy
      · simpa [List.find?, hpa] using hfind

/-- Every trigger phrase in the table contains a character that is not
whitespace even after lowercasing (checked by evaluation). -/
theorem triggers_not_blank :
    LEGAL_TIPS.all (fun tip => (splitPipe tip.trigger).all
      (fun tr => tr.any (fun c => !(Char.toLower c).isWhitespace))) = true := by
  decide

/-- A transcript matching some tip is not whitespace-only, so the trim guard
of `analyzeSpeech` does not fire. -/
theorem trim_guard_of_match {t : Str} {tip : LegalTip} (htab : tip ∈ LEGAL_TIPS)
    (h : tipMatches (lowerStr t) tip = true) : ¬ (trimL t).length = 0 := by
  intro hnil
  obtain ⟨tr, htr, hinc⟩ := List.any_eq_true.mp h
  have hnb := List.all_eq_true.mp triggers_not_blank tip htab
  have hnb2 := List.all_eq_true.mp hnb tr htr
  obtain ⟨c, hc, hcw⟩ := List.any_eq_true.mp hnb2
  have hmem : Char.toLower c ∈ lowerStr t :=
    mem_of_strIncludes hinc _ (List.mem_map_of_mem Char.toLower hc)
  obtain ⟨c0, hc0, heq⟩ := List.mem_map.mp hmem
  have hws : (Char.toLower c0).isWhitespace = true :=
    toLower_isWhitespace (trimL_eq_nil_all_ws hnil c0 hc0)
  rw [heq] at hws
  simp [hws] at hcw

/-- C1: for every transcript whose lowercased form contains at least one
declared trigger phrase as a substring, `analyzeSpeech` returns exactly the
first tip in table-declaration order whose trigger list contains a matching
phrase; all earlier tips in the table fail to match (first-declared-wins, even
when trigger substrings overlap across tips). -/
theorem analyzeSpeech_first_declared_wins (t : Str)
    (h : LEGAL_TIPS.any (tipMatches (lowerStr t)) = true) :
    ∃ pre tip post, LEGAL_TIPS = pre ++ tip :: post ∧
      (∀ tip2 ∈ pre, tipMatches (lowerStr t) tip2 = false) ∧
      tipMatches (lowerStr t) tip = true ∧
      analyzeSpeech t = some tip := by
  obtain ⟨pre, x, post, hl, hpre, hx, hfind⟩ := find?_first_hit _ LEGAL_TIPS h
  refine ⟨pre, x, post, hl, hpre, hx, ?_⟩
  have hmem : x ∈ LEGAL_TIPS := by rw [hl]; simp
  unfold analyzeSpeech
  rw [if_neg (trim_guard_of_match hmem hx)]
  exact hfind

/-- Witness for C1 at the transcript `"I do not consent"`: it contains the
trigger `"consent"` of the `consent` tip (table index 10) and also the
trigger `"i do not consent"` of the later `user_no_consent` tip (index 18);
the earlier tip wins. -/
theorem analyzeSpeech_first_declared_wins_witness :
    (LEGAL_TIPS.any (tipMatches (lowerStr (str "I do not consent"))) = true) ∧
    (∃ pre tip post, LEGAL_TIPS = pre ++ tip :: post ∧
      (∀ tip2 ∈ pre, tipMatches (lowerStr (str "I do not consent")) tip2 = false) ∧
      tipMatches (lowerStr (str "I do not consent")) tip = true ∧
      analyzeSpeech (str "I do not consent") = some tip) ∧
    (analyzeSpeech (str "I do not consent")).map (fun tip => tip.id) =
      some (str "consent") :=
  ⟨by decide, analyzeSpeech_first_declared_wins (str "I do not consent") (by decide),
   by decide⟩

/-- C9: a transcript containing no declared trigger substring — in particular
the empty string and whitespace-only strings — makes `analyzeSpeech` return
`none` (the function is total, so no exception can be raised). -/
theorem analyzeSpeech_no_match (t : Str)
    (h : LEGAL_TIPS.any (tipMatches (lowerStr t)) = false) :
    analyzeSpeech t = none := by
  unfold analyzeSpeech
  split
  · rfl
  · apply List.find?_eq_none.mpr
    intro x hx
    simp only [List.any_eq_true, not_exists] at *
    intro hmatch
    have := List.any_eq_true.mpr ⟨x, hx, hmatch⟩
    simp [h] at this

/-- Witness for C9 at a whitespace-only transcript and at an ordinary
transcript containing no trigger. -/
theorem analyzeSpeech_no_match_witness :
    (LEGAL_TIPS.any (tipMatches (lowerStr (str "   "))) = false ∧
      analyzeSpeech (str "   ") = none) ∧
    (LEGAL_TIPS.any (tipMatches (lowerStr (str "good morning"))) = false ∧
      analyzeSpeech (str "good morning") = none) :=
  ⟨⟨by decide, analyzeSpeech_no_match (str "   ") (by decide)⟩,
   ⟨by decide, analyzeSpeech_no_match (str "good morning") (by decide)⟩⟩

/-- C6: the quality-tier derivation is a total function of confidence with
thresholds 0.9 / 0.8 / 0.6: `≥ 0.9 → Excellent`, `[0.8, 0.9) → Good`,
`[0.6, 0.8) → Fair`, `< 0.6 → Poor`. -/
theorem determineQuality_spec (c : ℚ) :
    (9/10 ≤ c → determineQuality c = .Excellent) ∧
    (8/10 ≤ c → c < 9/10 → determineQuality c = .Good) ∧
    (6/10 ≤ c → c < 8/10 → determineQuality c = .Fair) ∧
    (c < 6/10 → determineQuality c = .Poor) := by
  unfold determineQuality
  refine ⟨fun h => ?_, fun h1 h2 => ?_, fun h1 h2 => ?_, fun h => ?_⟩
  · rw [if_pos h]
  · rw [if_neg (not_le.mpr h2), if_pos h1]
  · rw [if_neg (not_le.mpr (h2.trans_le (by norm_num))),
      if_neg (not_le.mpr h2), if_pos h1]
  · rw [if_neg (not_le.mpr (h.trans_le (by norm_num))),
      if_neg (not_le.mpr (h.trans_le (by norm_num))), if_neg (not_le.mpr h)]

/-- Witness for C6 at the four confidences named by the specification:
0.95, 0.85, 0.65 and 0.3. -/
theorem determineQuality_spec_witness :
    determineQuality (95/100) = .Excellent ∧
    determineQuality (85/100) = .Good ∧
    determineQuality (65/100) = .Fair ∧
    determineQuality (3/10) = .Poor :=
  ⟨(determineQuality_spec (95/100)).1 (by norm_num),
   (determineQuality_spec (85/100)).2.1 (by norm_num) (by norm_num),
   (determineQuality_spec (65/100)).2.2.1 (by norm_num) (by norm_num),
   (determineQuality_spec (3/10)).2.2.2 (by norm_num)⟩

/-- C4: the scenario selector checks the lowercased transcript against the
keyword sets in fixed priority order — arrest/search/probable cause, then
ice/immigration/citizen, then workplace/supervisor/overtime, then
store/return/receipt, else the default police scenario — and every result
carries fixed confidence 0.9; the ICE scenario has `urgencyLevel: critical`
and `requiresLegalAttention: true`. -/
theorem generateMockAnalysis_selector (t : Str) (d : ℕ) :
    ((strIncludes (lowerStr t) (str "arrest") || strIncludes (lowerStr t) (str "search")
        || strIncludes (lowerStr t) (str "probable cause")) = true →
      generateMockAnalysis t d = ⟨scenarioPolice, 9/10⟩) ∧
    ((strIncludes (lowerStr t) (str "arrest") || strIncludes (lowerStr t) (str "search")
        || strIncludes (lowerStr t) (str "probable cause")) = false →
      (strIncludes (lowerStr t) (str "ice") || strIncludes (lowerStr t) (str "immigration")
        || strIncludes (lowerStr t) (str "citizen")) = true →
      generateMockAnalysis t d = ⟨scenarioICE, 9/10⟩ ∧
      (generateMockAnalysis t d).urgencyLevel = some .critical ∧
      (generateMockAnalysis t d).requiresLegalAttention = true) ∧
    ((strIncludes (lowerStr t) (str "arrest") || strIncludes (lowerStr t) (str "search")
        || strIncludes (lowerStr t) (str "probable cause")) = false →
      (strIncludes (lowerStr t) (str "ice") || strIncludes (lowerStr t) (str "immigration")
        || strIncludes (lowerStr t) (str "citizen")) = false →
      (strIncludes (lowerStr t) (str "workplace") || strIncludes (lowerStr t) (str "supervisor")
        || strIncludes (lowerStr t) (str "overtime")) = true →
      generateMockAnalysis t d = ⟨scenarioWorkplace, 9/10⟩) ∧
    ((strIncludes (lowerStr t) (str "arrest") || strIncludes (lowerStr t) (str "search")
        || strIncludes (lowerStr t) (str "probable cause")) = false →
      (strIncludes (lowerStr t) (str "ice") || strIncludes (lowerStr t) (str "immigration")
        || strIncludes (lowerStr t) (str "citizen")) = false →
      (strIncludes (lowerStr t) (str "workplace") || strIncludes (lowerStr t) (str "supervisor")
        || strIncludes (lowerStr t) (str "overtime")) = false →
      (strIncludes (lowerStr t) (str "store") || strIncludes (lowerStr t) (str "return")
        || strIncludes (lowerStr t) (str "receipt")) = true →
      generateMockAnalysis t d = ⟨scenarioConsumer, 9/10⟩) ∧
    ((strIncludes (lowerStr t) (str "arrest") || strIncludes (lowerStr t) (str "search")
        || strIncludes (lowerStr t) (str "probable cause")) = false →
      (strIncludes (lowerStr t) (str "ice") || strIncludes (lowerStr t) (str "immigration")
        || strIncludes (lowerStr t) (str "citizen")) = false →
      (strIncludes (lowerStr t) (str "workplace") || strIncludes (lowerStr t) (str "supervisor")
        || strIncludes (lowerStr t) (str "overtime")) = false →
      (strIncludes (lowerStr t) (str "store") || strIncludes (lowerStr t) (str "return")
        || strIncludes (lowerStr t) (str "receipt")) = false →
      generateMockAnalysis t d = ⟨scenarioPolice, 9/10⟩) ∧
    (generateMockAnalysis t d).confidence = 9/10 := by
  refine ⟨fun h1 => ?_, fun h1 h2 => ?_, fun h1 h2 h3 => ?_,
    fun h1 h2 h3 h4 => ?_, fun h1 h2 h3 h4 => ?_, ?_⟩
  · simp_all [generateMockAnalysis]
  · have hres : generateMockAnalysis t d = ⟨scenarioICE, 9/10⟩ := by
      simp_all [generateMockAnalysis]
    exact ⟨hres, by rw [hres]; rfl, by rw [hres]; rfl⟩
  · simp_all [generateMockAnalysis]
  · simp_all [generateMockAnalysis]
  · simp_all [generateMockAnalysis]
  · rfl

/-- Witness for C4: one transcript per scenario branch, including the default
branch, matching the examples of the specification. -/
theorem generateMockAnalysis_selector_witness :
    generateMockAnalysis (str "they want to arrest me and search the car") 10
      = ⟨scenarioPolice, 9/10⟩ ∧
    (generateMockAnalysis (str "are you a citizen, open the door for ice") 10
        = ⟨scenarioICE, 9/10⟩ ∧
      (generateMockAnalysis (str "are you a citizen, open the door for ice") 10).urgencyLevel
        = some .critical ∧
      (generateMockAnalysis (str "are you a citizen, open the door for ice") 10).requiresLegalAttention
        = true) ∧
    generateMockAnalysis (str "my supervisor cut my overtime") 10
      = ⟨scenarioWorkplace, 9/10⟩ ∧
    generateMockAnalysis (str "no return without a receipt") 10
      = ⟨scenarioConsumer, 9/10⟩ ∧
    generateMockAnalysis (str "good evening") 10 = ⟨scenarioPolice, 9/10⟩ :=
  ⟨(generateMockAnalysis_selector (str "they want to arrest me and search the car") 10).1
      (by decide),
   (generateMockAnalysis_selector (str "are you a citizen, open the door for ice") 10).2.1
      (by decide) (by decide),
   (generateMockAnalysis_selector (str "my supervisor cut my overtime") 10).2.2.1
      (by decide) (by decide) (by decide),
   (generateMockAnalysis_selector (str "no return without a receipt") 10).2.2.2.1
      (by decide) (by decide) (by decide) (by decide),
   (generateMockAnalysis_selector (str "good evening") 10).2.2.2.2.1
      (by decide) (by decide) (by decide) (by decide)⟩

/-- C2 counterexample: `startSession` does not fail when a session is already
active.  Starting a session on `mgr0` and then starting another without an
intervening `endSession` silently replaces the active-session slot: the second
call returns a fresh session, the slot now holds the second session and the
first active session is gone (it was never added to the collection either). -/
theorem startSession_no_rejection_counterexample :
    (startSession { sessions := [] } {} exClock).2.currentSession
      = some (startSession { sessions := [] } {} exClock).1 ∧
    (startSession (startSession { sessions := [] } {} exClock).2 {} exClock2).2.currentSession
      = some (startSession (startSession { sessions := [] } {} exClock).2 {} exClock2).1 ∧
    (startSession (startSession { sessions := [] } {} exClock).2 {} exClock2).1
      ≠ (startSession { sessions := [] } {} exClock).1 ∧
    (startSession (startSession { sessions := [] } {} exClock).2 {} exClock2).2.currentSession
      ≠ some (startSession { sessions := [] } {} exClock).1 ∧
    (startSession { sessions := [] } {} exClock).1
      ∉ (startSession (startSession { sessions := [] } {} exClock).2 {} exClock2).2.sessions := by
  decide

/-- C2 amended: `startSession` never fails or rejects; it unconditionally
creates a fresh time-derived session and overwrites whatever was in the
active-session slot, leaving the session collection untouched (so a live
active session is silently lost).  At most one active session exists only
because the slot holds a single value. -/
theorem startSession_always_overwrites (st : ManagerState) (m : SessionMetadata)
    (now : Clock) :
    (startSession st m now).2.currentSession = some (startSession st m now).1 ∧
    (startSession st m now).1.id = str "session_" ++ natToStr now.ms ∧
    (startSession st m now).2.recordingStartTime = now.ms ∧
    (startSession st m now).2.sessions = st.sessions :=
  ⟨rfl, rfl, rfl, rfl⟩

/-- C3: a detection schedules the dismissal timeout with delay 12000 ms for
high urgency, 10000 ms for medium and 8000 ms for low, after clearing any
previously pending timeout; when a timeout fires it clears the visible tip
exactly when the tip that scheduled it is still the visible one, so a tip
detected later is never cleared by an earlier tip's timer. -/
theorem advisory_timer_spec (ps ps2 : PresentationState) (phrase : Str)
    (tip : LegalTip) (ti : TimerInfo) :
    (detectPhrase ps phrase tip).pendingTimer
      = some ⟨tip.id, hideDelay tip.urgency⟩ ∧
    (tip.urgency = .high → hideDelay tip.urgency = 12000) ∧
    (tip.urgency = .medium → hideDelay tip.urgency = 10000) ∧
    (tip.urgency = .low → hideDelay tip.urgency = 8000) ∧
    (ps2.pendingTimer = some ti →
      ps2.currentTip.map (fun c => c.id) = some ti.tipId →
      (fireTimer ps2).currentTip = none) ∧
    (ps2.pendingTimer = some ti →
      ps2.currentTip.map (fun c => c.id) ≠ some ti.tipId →
      (fireTimer ps2).currentTip = ps2.currentTip) ∧
    (∀ text, analyzeSpeech text = some tip →
      processDetectedSpeech ps text = detectPhrase ps text tip) := by
  refine ⟨rfl, fun h => by rw [h]; rfl, fun h => by rw [h]; rfl,
    fun h => by rw [h]; rfl, fun hp hv => ?_, fun hp hv => ?_, fun text h => ?_⟩
  · rcases ps2 with ⟨ct0, dp0, th0, pt0⟩
    rcases ct0 with _ | ct <;> rcases pt0 with _ | ti2 <;>
      simp_all [fireTimer, beq_iff_eq]
  · rcases ps2 with ⟨ct0, dp0, th0, pt0⟩
    rcases ct0 with _ | ct <;> rcases pt0 with _ | ti2 <;>
      simp_all [fireTimer, beq_iff_eq]
  · unfold processDetectedSpeech
    rw [h]

/-- Witness for C3: a high-urgency detection schedules a 12000 ms timeout;
firing it while the same tip is visible clears the tip; firing a stale timer
(scheduled by tip `a`) while a different tip `b` is visible leaves tip `b`
untouched. -/
theorem advisory_timer_spec_witness :
    (detectPhrase {} (str "x") exTipA).pendingTimer = some ⟨str "a", 12000⟩ ∧
    (fireTimer exPresA).currentTip = none ∧
    (fireTimer exPresB).currentTip = some exTipB :=
  ⟨(advisory_timer_spec {} {} (str "x") exTipA ⟨str "a", 12000⟩).1,
   (advisory_timer_spec {} exPresA (str "x") exTipA
      ⟨str "a", 12000⟩).2.2.2.2.1 rfl (by decide),
   (advisory_timer_spec {} exPresB (str "x") exTipA
      ⟨str "a", 12000⟩).2.2.2.2.2.1 rfl (by decide)⟩

/-- C7 counterexample: the detection history is unbounded.  After four
detections (each matching a declared trigger) the recent-tip history kept by
the controller has length 4, so it exceeds the claimed bound of 3. -/
theorem tipHistory_unbounded_counterexample :
    (processDetectedSpeech (processDetectedSpeech (processDetectedSpeech
        (processDetectedSpeech {} (str "can i search the car"))
        (str "you are under arrest"))
        (str "are you a citizen"))
        (str "you are being detained")).tipHistory.length = 4 ∧
    ¬ ((processDetectedSpeech (processDetectedSpeech (processDetectedSpeech
        (processDetectedSpeech {} (str "can i search the car"))
        (str "you are under arrest"))
        (str "are you a citizen"))
        (str "you are being detained")).tipHistory.length ≤ 3) := by
  decide

/-- C7 amended: the controller appends every detected tip to an unbounded
`tipHistory`; the bounded recent-tip window actually used (the
`tipHistory.slice(-3)` read by the synthetic generator) never exceeds length 3
and always holds the ids of the (at most) 3 most recently detected tips in
detection order. -/
theorem tipHistory_window (ps : PresentationState) (phrase : Str)
    (tip : LegalTip) :
    (detectPhrase ps phrase tip).tipHistory = ps.tipHistory ++ [tip] ∧
    lastN 3 (detectPhrase ps phrase tip).tipHistory
      = lastN 2 ps.tipHistory ++ [tip] ∧
    (lastN 3 (detectPhrase ps phrase tip).tipHistory).length ≤ 3 := by
  refine ⟨rfl, ?_, ?_⟩
  · show lastN 3 (ps.tipHistory ++ [tip]) = lastN 2 ps.tipHistory ++ [tip]
    unfold lastN
    rw [List.length_append, List.length_singleton]
    have harg : ps.tipHistory.length + 1 - 3 = ps.tipHistory.length - 2 := by omega
    rw [harg, List.drop_append_of_le_length (Nat.sub_le _ _)]
  · show (lastN 3 (ps.tipHistory ++ [tip])).length ≤ 3
    unfold lastN
    rw [List.length_drop]
    omega

/-! ### Lemmas about the session collection operations -/

theorem applyUpdate_id (s : SessionData) (u : SessionUpdate) :
    (applyUpdate s u).id = s.id := rfl

theorem updateFirst_some (p : SessionData → Bool) (f : SessionData → SessionData) :
    ∀ l : List SessionData, l.any p = true →
      ∃ pre x post, l = pre ++ x :: post ∧ (∀ y ∈ pre, p y = false) ∧
        p x = true ∧ updateFirst p f l = some (pre ++ f x :: post) := by
  intro l
  induction l with
  | nil => intro h; simp at h
  | cons a t ih =>
    intro h
    cases hpa : p a with
    | true =>
      exact ⟨[], a, t, rfl, by simp, hpa, by simp [updateFirst, hpa]⟩
    | false =>
      simp only [List.any_cons, hpa, Bool.false_or] at h
      obtain ⟨pre, x, post, hl, hpre, hx, hupd⟩ := ih h
      refine ⟨a :: pre, x, post, by simp [hl], ?_, hx, ?_⟩
      · intro y hy
        rcases List.mem_cons.mp hy with rfl | hy
        · exact hpa
        · exact hpre y hy
      · simp [updateFirst, hpa, hupd]

theorem removeFirst_eq_none (p : SessionData → Bool) :
    ∀ l : List SessionData, (∀ x ∈ l, p x = false) → removeFirst p l = none := by
  intro l
  induction l with
  | nil => intro _; rfl
  | cons a t ih =>
    intro h
    have hpa : p a = false := h a (List.mem_cons_self a t)
    have hrest := ih fun x hx => h x (List.mem_cons_of_mem a hx)
    simp [removeFirst, hpa, hrest]

theorem removeFirst_some (p : SessionData → Bool) :
    ∀ l : List SessionData, l.any p = true →
      ∃ pre x post, l = pre ++ x :: post ∧ (∀ y ∈ pre, p y = false) ∧
        p x = true ∧ removeFirst p l = some (pre ++ post) := by
  intro l
  induction l with
  | nil => intro h; simp at h
  | cons a t ih =>
    intro h
    cases hpa : p a with
    | true =>
      exact ⟨[], a, t, rfl, by simp, hpa, by simp [removeFirst, hpa]⟩
    | false =>
      simp only [List.any_cons, hpa, Bool.false_or] at h
      obtain ⟨pre, x, post, hl, hpre, hx, hrem⟩ := ih h
      refine ⟨a :: pre, x, post, by simp [hl], ?_, hx, ?_⟩
      · intro y hy
        rcases List.mem_cons.mp hy with rfl | hy
        · exact hpa
        · exact hpre y hy
      · simp [removeFirst, hpa, hrem]

theorem updateSessionProgress_found (st : ManagerState) (sid : Str)
    (u : SessionUpdate)
    (h : st.sessions.any (fun s => s.id == sid) = true) :
    ∃ pre x post,
      st.sessions = pre ++ x :: post ∧ x.id = sid ∧
      (∀ y ∈ pre, (y.id == sid) = false) ∧
      (updateSessionProgress st sid u).sessions = pre ++ applyUpdate x u :: post ∧
      (updateSessionProgress st sid u).notified
        = (pre ++ applyUpdate x u :: post) :: st.notified := by
  obtain ⟨pre, x, post, hl, hpre, hx, hupd⟩ :=
    updateFirst_some (fun s => s.id == sid) (fun s => applyUpdate s u)
      st.sessions h
  exact ⟨pre, x, post, hl, eq_of_beq (by simpa using hx),
    fun y hy => by simpa using hpre y hy,
    by simp [updateSessionProgress, hupd],
    by simp [updateSessionProgress, hupd]⟩

theorem updateSessionProgress_head (st : ManagerState) (sid : Str)
    (u : SessionUpdate) (x : SessionData) (l : List SessionData)
    (hsess : st.sessions = x :: l) (hid : x.id = sid) :
    (updateSessionProgress st sid u).sessions = applyUpdate x u :: l ∧
    (updateSessionProgress st sid u).notified
      = (applyUpdate x u :: l) :: st.notified := by
  have hbeq : (x.id == sid) = true := by rw [hid]; exact beq_self_eq_true sid
  have hupd : updateFirst (fun s => s.id == sid) (fun s => applyUpdate s u)
      st.sessions = some (applyUpdate x u :: l) := by
    rw [hsess]; simp [updateFirst, hbeq]
  constructor <;> simp [updateSessionProgress, hupd]

theorem analysisPipeline_head (st : ManagerState) (sid : Str) (d : ℕ)
    (tstep : Except Str Str) (astep : Str → Except Str AIAnalysis)
    (x : SessionData) (l : List SessionData)
    (hsess : st.sessions = x :: l) (hid : x.id = sid) :
    ∃ s2, (analysisPipeline st sid d tstep astep).sessions = s2 :: l ∧
      s2.id = sid := by
  cases tstep with
  | error e =>
    obtain ⟨h1, _⟩ := updateSessionProgress_head st sid failUpdate x l hsess hid
    exact ⟨applyUpdate x failUpdate, h1, by rw [applyUpdate_id]; exact hid⟩
  | ok tr =>
    obtain ⟨h1, _⟩ :=
      updateSessionProgress_head st sid (transcriptUpdate tr) x l hsess hid
    have hid1 : (applyUpdate x (transcriptUpdate tr)).id = sid := by
      rw [applyUpdate_id]; exact hid
    cases hstep : astep tr with
    | error e =>
      obtain ⟨h2, _⟩ := updateSessionProgress_head
        (updateSessionProgress st sid (transcriptUpdate tr)) sid failUpdate
        _ l h1 hid1
      refine ⟨applyUpdate (applyUpdate x (transcriptUpdate tr)) failUpdate, ?_,
        by rw [applyUpdate_id, applyUpdate_id]; exact hid⟩
      have hpipe : analysisPipeline st sid d (.ok tr) astep
          = updateSessionProgress
              (updateSessionProgress st sid (transcriptUpdate tr)) sid
              failUpdate := by
        simp only [analysisPipeline, hstep]
      rw [hpipe]; exact h2
    | ok a =>
      obtain ⟨h2, _⟩ := updateSessionProgress_head
        (updateSessionProgress st sid (transcriptUpdate tr)) sid
        (completeUpdate a) _ l h1 hid1
      refine ⟨applyUpdate (applyUpdate x (transcriptUpdate tr)) (completeUpdate a),
        ?_, by rw [applyUpdate_id, applyUpdate_id]; exact hid⟩
      have hpipe : analysisPipeline st sid d (.ok tr) astep
          = updateSessionProgress
              (updateSessionProgress st sid (transcriptUpdate tr)) sid
              (completeUpdate a) := by
        simp only [analysisPipeline, hstep]
      rw [hpipe]; exact h2

/-- C5: when either background step fails, the pipeline never lets the failure
escape (the function is total and the `catch` branch is taken): the session is
updated in place to status Failed with quality Poor and the explanatory
snippet, it remains in the collection (whose length is unchanged), and
listeners are notified with the final collection containing the failed
session. -/
theorem pipeline_failure_never_escapes (st : ManagerState) (sid : Str) (d : ℕ)
    (tstep : Except Str Str) (astep : Str → Except Str AIAnalysis)
    (hpresent : st.sessions.any (fun s => s.id == sid) = true)
    (hfail : (∃ e, tstep = .error e) ∨
      ∃ tr e, tstep = .ok tr ∧ astep tr = .error e) :
    (∃ s ∈ (analysisPipeline st sid d tstep astep).sessions,
        s.id = sid ∧ s.status = .Failed ∧ s.quality = .Poor ∧
        s.snippet = str "Analysis failed. Please try again.") ∧
    (analysisPipeline st sid d tstep astep).sessions.length
      = st.sessions.length ∧
    (∃ rest, (analysisPipeline st sid d tstep astep).notified
      = (analysisPipeline st sid d tstep astep).sessions :: rest) := by
  rcases hfail with ⟨e, rfl⟩ | ⟨tr, e, rfl, herr⟩
  · obtain ⟨pre, x, post, hl, hxid, hpre, hsess, hnot⟩ :=
      updateSessionProgress_found st sid failUpdate hpresent
    refine ⟨⟨applyUpdate x failUpdate, ?_, ?_, rfl, rfl, rfl⟩, ?_,
      ⟨st.notified, ?_⟩⟩
    · show applyUpdate x failUpdate
        ∈ (updateSessionProgress st sid failUpdate).sessions
      rw [hsess]
      exact List.mem_append_right _ (List.mem_cons_self _ _)
    · show (applyUpdate x failUpdate).id = sid
      rw [applyUpdate_id]; exact hxid
    · show (updateSessionProgress st sid failUpdate).sessions.length
        = st.sessions.length
      rw [hsess, hl]; simp
    · show (updateSessionProgress st sid failUpdate).notified
        = (updateSessionProgress st sid failUpdate).sessions :: st.notified
      rw [hnot, hsess]
  · obtain ⟨pre, x, post, hl, hxid, hpre, hsess1, hnot1⟩ :=
      updateSessionProgress_found st sid (transcriptUpdate tr) hpresent
    have hpres1 : (updateSessionProgress st sid (transcriptUpdate tr)).sessions.any
        (fun s => s.id == sid) = true := by
      rw [hsess1]
      refine List.any_eq_true.mpr
        ⟨applyUpdate x (transcriptUpdate tr),
          List.mem_append_right _ (List.mem_cons_self _ _), ?_⟩
      simp [applyUpdate_id, hxid]
    obtain ⟨pre2, x2, post2, hl2, hx2id, hpre2, hsess2, hnot2⟩ :=
      updateSessionProgress_found
        (updateSessionProgress st sid (transcriptUpdate tr)) sid failUpdate
        hpres1
    have hpipe : analysisPipeline st sid d (.ok tr) astep
        = updateSessionProgress
            (updateSessionProgress st sid (transcriptUpdate tr)) sid
            failUpdate := by
      simp only [analysisPipeline, herr]
    rw [hpipe]
    refine ⟨⟨applyUpdate x2 failUpdate, ?_, ?_, rfl, rfl, rfl⟩, ?_,
      ⟨(updateSessionProgress st sid (transcriptUpdate tr)).notified, ?_⟩⟩
    · rw [hsess2]
      exact List.mem_append_right _ (List.mem_cons_self _ _)
    · rw [applyUpdate_id]; exact hx2id
    · calc (updateSessionProgress
            (updateSessionProgress st sid (transcriptUpdate tr)) sid
            failUpdate).sessions.length
          = (pre2 ++ applyUpdate x2 failUpdate :: post2).length := by rw [hsess2]
        _ = (pre2 ++ x2 :: post2).length := by simp
        _ = (pre ++ applyUpdate x (transcriptUpdate tr) :: post).length := by
            rw [← hl2, hsess1]
        _ = (pre ++ x :: post).length := by simp
        _ = st.sessions.length := by rw [hl]
    · rw [hnot2, hsess2]

/-- Witness for C5: a one-session state whose background transcription step
fails; the theorem is applied with the concrete failing step. -/
theorem pipeline_failure_never_escapes_witness :
    ((exState.sessions.any (fun s => s.id == str "session_1")) = true) ∧
    ((∃ s ∈ (analysisPipeline exState (str "session_1") 154
          (.error (str "boom")) (fun _ => .error (str "boom"))).sessions,
        s.id = str "session_1" ∧ s.status = .Failed ∧ s.quality = .Poor ∧
        s.snippet = str "Analysis failed. Please try again.") ∧
      (analysisPipeline exState (str "session_1") 154
        (.error (str "boom")) (fun _ => .error (str "boom"))).sessions.length
        = exState.sessions.length ∧
      (∃ rest, (analysisPipeline exState (str "session_1") 154
          (.error (str "boom")) (fun _ => .error (str "boom"))).notified
        = (analysisPipeline exState (str "session_1") 154
            (.error (str "boom")) (fun _ => .error (str "boom"))).sessions
          :: rest)) :=
  ⟨by decide,
   pipeline_failure_never_escapes exState (str "session_1") 154
     (.error (str "boom")) (fun _ => .error (str "boom")) (by decide)
     (Or.inl ⟨str "boom", rfl⟩)⟩

/-- C8: programmer-error conditions return sentinels and never throw:
`endSession` with no active session returns `none` and leaves the state
unchanged; `deleteSession` on an unknown id returns `false` and changes
nothing; a successful `deleteSession` removes the session from the
listener-visible collection and from subsequent `getSessions()` results, so
deleting the same id twice returns `false` the second time (session ids are
unique, which the hypothesis `hdup` records). -/
theorem sentinel_error_handling (st : ManagerState) (now : Clock) (sid : Str)
    (hactive : st.currentSession = none)
    (hdup : st.sessions.countP (fun s => s.id == sid) ≤ 1) :
    (endSession st now).1 = none ∧
    (endSession st now).2 = st ∧
    (st.sessions.all (fun s => !(s.id == sid)) = true →
      (deleteSession st sid).1 = false ∧ (deleteSession st sid).2 = st) ∧
    (st.sessions.any (fun s => s.id == sid) = true →
      (deleteSession st sid).1 = true ∧
      (getSessions (deleteSession st sid).2).all
        (fun s => !(s.id == sid)) = true ∧
      (deleteSession (deleteSession st sid).2 sid).1 = false) := by
  refine ⟨?_, ?_, fun hall => ?_, fun hany => ?_⟩
  · simp [endSession, hactive]
  · simp [endSession, hactive]
  · have hnone : removeFirst (fun s => s.id == sid) st.sessions = none := by
      apply removeFirst_eq_none
      intro x hx
      simpa using List.all_eq_true.mp hall x hx
    constructor <;> simp [deleteSession, hnone]
  · obtain ⟨pre, x, post, hl, hpre, hx, hrem⟩ :=
      removeFirst_some (fun s => s.id == sid) st.sessions hany
    have hdel : deleteSession st sid = (true, { st with sessions := pre ++ post, notified := (pre ++ post) :: st.notified }) := by
      simp [deleteSession, hrem]
    have hcnt0 : (pre ++ post).countP (fun s => s.id == sid) = 0 := by
      have h1 : st.sessions.countP (fun s => s.id == sid)
          = pre.countP (fun s => s.id == sid)
            + ((x :: post).countP (fun s => s.id == sid)) := by
        rw [hl, List.countP_append]
      have h2 : (x :: post).countP (fun s => s.id == sid)
          = post.countP (fun s => s.id == sid) + 1 :=
        List.countP_cons_of_pos _ _ (by simpa using hx)
      rw [List.countP_append]
      omega
    have hall2 : ∀ y ∈ pre ++ post, (y.id == sid) = false := by
      intro y hy
      have := List.countP_eq_zero.mp hcnt0 y hy
      simpa using this
    refine ⟨by rw [hdel], ?_, ?_⟩
    · rw [hdel]
      show (pre ++ post).all (fun s => !(s.id == sid)) = true
      apply List.all_eq_true.mpr
      intro y hy
      simp [hall2 y hy]
    · rw [hdel]
      have hnone2 : removeFirst (fun s => s.id == sid) (pre ++ post) = none :=
        removeFirst_eq_none _ _ hall2
      simp [deleteSession, hnone2]

/-- Witness for C8 on a concrete two-session state: ending with no active
session yields `none`; deleting the unknown id `nope` returns `false`;
deleting `session_1` succeeds, removes it from `getSessions()` and a second
delete of the same id returns `false`. -/
theorem sentinel_error_handling_witness :
    (endSession exState exClock).1 = none ∧
    (deleteSession exState (str "nope")).1 = false ∧
    (deleteSession exState (str "session_1")).1 = true ∧
    (getSessions (deleteSession exState (str "session_1")).2).all
      (fun s => !(s.id == str "session_1")) = true ∧
    (deleteSession (deleteSession exState (str "session_1")).2
      (str "session_1")).1 = false :=
  ⟨(sentinel_error_handling exState exClock (str "session_1") rfl
      (by decide)).1,
   ((sentinel_error_handling exState exClock (str "nope") rfl
      (by decide)).2.2.1 (by decide)).1,
   ((sentinel_error_handling exState exClock (str "session_1") rfl
      (by decide)).2.2.2 (by decide)).1,
   ((sentinel_error_handling exState exClock (str "session_1") rfl
      (by decide)).2.2.2 (by decide)).2.1,
   ((sentinel_error_handling exState exClock (str "session_1") rfl
      (by decide)).2.2.2 (by decide)).2.2⟩

/-- C10 (implicit): stopping one recording produces two distinct session
records.  `endSession` prepends the ended active session; the subsequent
`saveSession` always creates a brand-new session with a fresh time-derived id
and prepends it too; and the background pipeline scheduled by `saveSession`
only ever rewrites the head record it created — the record `endSession`
prepended (and everything older) is never touched by the pipeline, and only
the `saveSession` record receives the transcript/analysis updates. -/
theorem stopRecording_two_records (st : ManagerState) (cs : SessionData)
    (ec sc : Clock) (dur : ℕ) (audio : Option Str)
    (hactive : st.currentSession = some cs) :
    ∃ ended,
      (endSession st ec).1 = some ended ∧
      (endSession st ec).2.sessions = ended :: st.sessions ∧
      (endSession st ec).2.currentSession = none ∧
      (saveSession (endSession st ec).2 dur audio sc).1.id
        = str "session_" ++ natToStr sc.ms ∧
      (saveSession (endSession st ec).2 dur audio sc).1.status = .Processing ∧
      (saveSession (endSession st ec).2 dur audio sc).2.sessions
        = (saveSession (endSession st ec).2 dur audio sc).1
          :: ended :: st.sessions ∧
      (saveSession (endSession st ec).2 dur audio sc).2.sessions.length
        = st.sessions.length + 2 ∧
      ∀ d2 tstep astep, ∃ s2,
        (analysisPipeline (saveSession (endSession st ec).2 dur audio sc).2
            (saveSession (endSession st ec).2 dur audio sc).1.id d2 tstep
            astep).sessions
          = s2 :: ended :: st.sessions ∧
        s2.id = str "session_" ++ natToStr sc.ms := by
  refine ⟨{ cs with
      duration := formatDuration ((ec.ms - st.recordingStartTime) / 1000)
      snippet := str "Processing session analysis..."
      status := Status.Processing }, ?_, ?_, ?_, rfl, rfl, ?_, ?_, ?_⟩
  · simp [endSession, hactive]
  · simp [endSession, hactive]
  · simp [endSession, hactive]
  · show (saveSession (endSession st ec).2 dur audio sc).1
        :: (endSession st ec).2.sessions
      = (saveSession (endSession st ec).2 dur audio sc).1 :: _ :: st.sessions
    have h2 : (endSession st ec).2.sessions
        = { cs with
            duration := formatDuration ((ec.ms - st.recordingStartTime) / 1000)
            snippet := str "Processing session analysis..."
            status := Status.Processing } :: st.sessions := by
      simp [endSession, hactive]
    rw [h2]
  · show ((saveSession (endSession st ec).2 dur audio sc).1
        :: (endSession st ec).2.sessions).length = st.sessions.length + 2
    have h2 : (endSession st ec).2.sessions
        = { cs with
            duration := formatDuration ((ec.ms - st.recordingStartTime) / 1000)
            snippet := str "Processing session analysis..."
            status := Status.Processing } :: st.sessions := by
      simp [endSession, hactive]
    rw [h2]; simp
  · intro d2 tstep astep
    apply analysisPipeline_head
      (saveSession (endSession st ec).2 dur audio sc).2
      (saveSession (endSession st ec).2 dur audio sc).1.id d2 tstep astep
      (saveSession (endSession st ec).2 dur audio sc).1
    · show (saveSession (endSession st ec).2 dur audio sc).1
          :: (endSession st ec).2.sessions
        = (saveSession (endSession st ec).2 dur audio sc).1 :: _ :: st.sessions
      have h2 : (endSession st ec).2.sessions
          = { cs with
              duration := formatDuration ((ec.ms - st.recordingStartTime) / 1000)
              snippet := str "Processing session analysis..."
              status := Status.Processing } :: st.sessions := by
        simp [endSession, hactive]
      rw [h2]
    · rfl

/-- Witness for C10 on a concrete state in which `exSession1` is active:
stopping at `exClock` and saving a 154-second recording at `exClock2`
produces the ended record plus a fresh `session_65000` record. -/
theorem stopRecording_two_records_witness :
    exStateActive.currentSession = some exSession1 ∧
    ∃ ended,
      (endSession exStateActive exClock).1 = some ended ∧
      (endSession exStateActive exClock).2.sessions
        = ended :: exStateActive.sessions ∧
      (endSession exStateActive exClock).2.currentSession = none ∧
      (saveSession (endSession exStateActive exClock).2 154
          (some (str "ref-1")) exClock2).1.id
        = str "session_" ++ natToStr exClock2.ms ∧
      (saveSession (endSession exStateActive exClock).2 154
          (some (str "ref-1")) exClock2).1.status = .Processing ∧
      (saveSession (endSession exStateActive exClock).2 154
          (some (str "ref-1")) exClock2).2.sessions
        = (saveSession (endSession exStateActive exClock).2 154
            (some (str "ref-1")) exClock2).1
          :: ended :: exStateActive.sessions ∧
      (saveSession (endSession exStateActive exClock).2 154
          (some (str "ref-1")) exClock2).2.sessions.length
        = exStateActive.sessions.length + 2 ∧
      ∀ d2 tstep astep, ∃ s2,
        (analysisPipeline (saveSession (endSession exStateActive exClock).2 154
            (some (str "ref-1")) exClock2).2
            (saveSession (endSession exStateActive exClock).2 154
              (some (str "ref-1")) exClock2).1.id d2 tstep astep).sessions
          = s2 :: ended :: exStateActive.sessions ∧
        s2.id = str "session_" ++ natToStr exClock2.ms :=
  ⟨rfl, stopRecording_two_records exStateActive exSession1 exClock exClock2 154
    (some (str "ref-1")) rfl⟩

end LegalGuardian
